import Mathlib

/-!
Verification of the finance-ai Telegram bot message pipeline.

The repository ships a single linear request handler in two observed
variants:
* the simple variant (`src/index.js`): text-only prompt, plain JSON
  extraction, conditional Date line in the confirmation;
* the richer variant (second document of `src/unnamed/part_001`,
  lines 165-399): photo support, provider-enforced response schema,
  `payed_at` defaulted to the current time before insertion, and optional
  sub-field lines in the confirmation.

We shallowly embed both handlers as pure functions from an environment of
external-call outcomes (Telegram file resolution, HTTP fetch, AI
completion, JSON parse, store insert) to an `Effects` record collecting
every externally visible action: getFile requests, fetches, AI calls,
attempted and persisted store inserts, and outbound replies.
-/

/-- A JavaScript JSON-ish value as produced by `JSON.parse` (plus
`undefined`, which property access on a missing key yields). Numbers are
modelled as integers: the handlers perform no arithmetic on them, only a
`!== null` comparison and string interpolation. -/
inductive JsValue where
  | undefined : JsValue
  | null : JsValue
  | bool : Bool → JsValue
  | num : Int → JsValue
  | str : String → JsValue
  | obj : List (String × JsValue) → JsValue
  | arr : List JsValue → JsValue
deriving Repr

namespace JsValue

/-- JavaScript truthiness of a JSON value: `undefined`, `null`, `false`,
`0` and `""` are falsy; every object and array is truthy. -/
def truthy : JsValue → Bool
  | undefined => false
  | null => false
  | bool b => b
  | num n => n != 0
  | str s => s != ""
  | obj _ => true
  | arr _ => true

/-- Key lookup in an object's field list (keys are unique in an object
produced by `JSON.parse`). -/
def findF : List (String × JsValue) → String → Option JsValue
  | [], _ => none
  | (a, b) :: rest, k => if a = k then some b else findF rest k

/-- Property read `v[k]`: on an object, the bound value or `undefined`
when the key is absent; on other values, `undefined` (the handlers only
read `v[k]` after a truthiness guard, so the null/undefined receiver case
— which would throw in JavaScript — is never reached; we let it return
`undefined` to keep the function total). -/
def getF : JsValue → String → JsValue
  | obj fields, k => (findF fields k).getD undefined
  | _, _ => undefined

/-- Replace the binding of a key in a field list, or append it when the
key is absent (property assignment on an object). -/
def setAssoc : List (String × JsValue) → String → JsValue →
    List (String × JsValue)
  | [], k, x => [(k, x)]
  | (a, b) :: rest, k, x =>
      if a = k then (a, x) :: rest else (a, b) :: setAssoc rest k x

/-- Property write `v[k] = x`: replaces or adds the binding on an object;
a silent no-op on primitives (non-strict mode assignment to a primitive
property). -/
def setF : JsValue → String → JsValue → JsValue
  | obj fields, k, x => obj (setAssoc fields k x)
  | v, _, _ => v

/-- `value === null`, as a boolean. -/
def isNull : JsValue → Bool
  | null => true
  | _ => false

mutual

/-- JavaScript string interpolation of a value (template-literal
coercion). Arrays join their elements with commas, rendering `null` and
`undefined` elements as empty strings. -/
def jsToString : JsValue → String
  | undefined => "undefined"
  | null => "null"
  | bool b => if b then "true" else "false"
  | num n => toString n
  | str s => s
  | obj _ => "[object Object]"
  | arr l => String.intercalate "," (jsItemStrings l)

/-- Renders the elements of an array for `Array.prototype.toString`. -/
def jsItemStrings : List JsValue → List String
  | [] => []
  | undefined :: rest => "" :: jsItemStrings rest
  | null :: rest => "" :: jsItemStrings rest
  | v :: rest => jsToString v :: jsItemStrings rest

end

end JsValue

/-- The base64 alphabet, index 0-63. -/
def base64Alphabet : List Char :=
  "ABCDEFGHIJKLMNOPQRSTUVWXYZabcdefghijklmnopqrstuvwxyz0123456789+/".toList

/-- One base64 alphabet character. -/
def b64char (n : Nat) : Char := base64Alphabet.getD n 'A'

/-- Standard base64 encoding of a byte sequence, as a character list. -/
def base64Chars : List Nat → List Char
  | [] => []
  | [a] =>
      [b64char (a / 4 % 64), b64char (a % 4 * 16), '=', '=']
  | [a, b] =>
      [b64char (a / 4 % 64), b64char (a % 4 * 16 + b / 16 % 16),
       b64char (b % 16 * 4), '=']
  | a :: b :: c :: rest =>
      b64char (a / 4 % 64) :: b64char (a % 4 * 16 + b / 16 % 16) ::
      b64char (b % 16 * 4 + c / 64 % 4) :: b64char (c % 64) ::
      base64Chars rest

/-- `Buffer.from(bytes).toString("base64")`. -/
def base64Encode (bytes : List Nat) : String := String.mk (base64Chars bytes)

/-- The content handed to the AI completion endpoint: either a plain
instruction string, or the instruction paired with an inline base64 image
payload tagged with a MIME type. -/
inductive Content where
  | text : String → Content
  | withImage : String → String → String → Content
deriving Repr, DecidableEq

/-- One photo size variant of a Telegram photo message. -/
structure PhotoSize where
  file_id : String
deriving Repr, DecidableEq

/-- The result of `bot.getFile`. -/
structure FileInfo where
  file_path : String
deriving Repr, DecidableEq

/-- An inbound Telegram message, as far as the handlers inspect it:
chat id, optional text, optional ordered list of photo size variants. -/
structure Msg where
  chatId : Int
  text : Option String
  photo : Option (List PhotoSize)
deriving Repr, DecidableEq

/-- One row as passed to `supabase.from("payments").insert`. -/
structure Row where
  value : JsValue
  description : JsValue
  category : JsValue
  payed_at : JsValue
  data : JsValue
deriving Repr

/-- Everything externally visible a single message handling performs. -/
structure Effects where
  fileRequests : List String := []
  fetches : List String := []
  aiInputs : List Content := []
  attempts : List Row := []
  stored : List Row := []
  replies : List (Int × String) := []
deriving Repr

/-- Concatenation of effect logs (sequencing two phases of the handler). -/
def Effects.app (a b : Effects) : Effects :=
  { fileRequests := a.fileRequests ++ b.fileRequests
    fetches := a.fetches ++ b.fetches
    aiInputs := a.aiInputs ++ b.aiInputs
    attempts := a.attempts ++ b.attempts
    stored := a.stored ++ b.stored
    replies := a.replies ++ b.replies }

/-- Outcomes of every external call the handlers make, fixed per run:
Telegram bot token, `bot.getFile`, the image fetch, the AI completion
(`Except.error` models a thrown exception), `JSON.parse` (`none` models a
parse exception), the store insert error flag, `new Date().toISOString()`
and `toLocaleDateString()`. -/
structure Env where
  token : String
  getFile : String → Except Unit FileInfo
  fetch : String → Except Unit (List Nat)
  gen : Content → Except Unit String
  parse : String → Option JsValue
  insertError : Row → Bool
  now : String
  formatDate : JsValue → String

/-- Reply sent when `JSON.parse` on the AI response throws. -/
def couldNotUnderstandMsg : String :=
  "Sorry, I couldn\x27t understand the financial information in your message."

/-- Reply sent on the designed no-data path (`value` null / result falsy). -/
def noPaymentInfoMsg : String :=
  "I couldn\x27t find any payment information in your message. Please make sure to include an amount and description."

/-- Reply sent when the store insert reports an error. -/
def saveErrorMsg : String :=
  "Sorry, there was an error saving your payment information."

/-- Generic reply sent by the top-level catch. -/
def processingErrorMsg : String :=
  "Sorry, there was an error processing your message."

/-- Guidance reply sent when a message has neither (truthy) text nor a photo. -/
def resendMsg : String :=
  "Please send a text message or an image containing payment information."

namespace Rich

/-- The extraction instruction of the richer (schema-enforced) variant. -/
def EXTRACTION_PROMPT : String :=
  "Extract financial information from the input.\n\nFor images, look for receipts, invoices, or any text containing payment information.\nFor text messages, analyze the content for payment details.\n\nFocus on extracting:\n- Payment amount (in numbers)\n- Payment description\n- Category (e.g., food, transport, utilities)\n- Date (if mentioned)\n- Additional details like location, merchant, payment method, or any relevant notes"

/-- The optional sub-field lines of the richer confirmation message, built
from the `data` member of the parsed record. -/
def dataLines (d : JsValue) : String :=
  if d.truthy then
    (if (d.getF "location").truthy then
      "\nLocation: " ++ (d.getF "location").jsToString else "") ++
    (if (d.getF "merchant").truthy then
      "\nMerchant: " ++ (d.getF "merchant").jsToString else "") ++
    (if (d.getF "payment_method").truthy then
      "\nPayment Method: " ++ (d.getF "payment_method").jsToString else "") ++
    (if (d.getF "notes").truthy then
      "\nNotes: " ++ (d.getF "notes").jsToString else "")
  else ""

/-- The richer variant's confirmation message (after `payed_at`
defaulting, so the Date line is unconditional). -/
def successMessage (env : Env) (fd : JsValue) : String :=
  "✅ Payment recorded!\n\n" ++
  "Amount: $" ++ (fd.getF "value").jsToString ++ "\n" ++
  "Description: " ++ (fd.getF "description").jsToString ++ "\n" ++
  "Category: " ++ (fd.getF "category").jsToString ++ "\n" ++
  "Date: " ++ env.formatDate (fd.getF "payed_at") ++
  dataLines (fd.getF "data")

/-- `processFinancialData` of the richer variant (part_001 lines
259-316): qualify on truthiness and `value !== null`, default a falsy
`payed_at` to the current time, insert one row, reply by outcome. -/
def processFinancialData (env : Env) (financialData : JsValue)
    (chatId : Int) : Effects :=
  if financialData.truthy && !(financialData.getF "value").isNull then
    let fd :=
      if !(financialData.getF "payed_at").truthy then
        financialData.setF "payed_at" (.str env.now)
      else financialData
    let row : Row :=
      ⟨fd.getF "value", fd.getF "description", fd.getF "category",
       fd.getF "payed_at", fd.getF "data"⟩
    if env.insertError row then
      { attempts := [row], replies := [(chatId, saveErrorMsg)] }
    else
      { attempts := [row], stored := [row],
        replies := [(chatId, successMessage env fd)] }
  else
    { replies := [(chatId, noPaymentInfoMsg)] }

/-- The Telegram file-download URL built by the handler. -/
def fileUrl (token path : String) : String :=
  "https://api.telegram.org/file/bot" ++ token ++ "/" ++ path

/-- The tail of the handler once the AI content is assembled: one
completion call, `JSON.parse`, then `processFinancialData`; a thrown
completion call reaches the top-level catch. -/
def afterContent (env : Env) (chatId : Int) (content : Content) : Effects :=
  match env.gen content with
  | .error _ =>
      { aiInputs := [content], replies := [(chatId, processingErrorMsg)] }
  | .ok text =>
    match env.parse text with
    | none =>
        { aiInputs := [content], replies := [(chatId, couldNotUnderstandMsg)] }
    | some fd =>
        Effects.app { aiInputs := [content] }
          (processFinancialData env fd chatId)

/-- The richer variant's `bot.on("message")` handler (part_001 lines
325-393), as a function from external-call outcomes to visible effects.
Every JavaScript throw site (property read on an undefined last photo
variant, `bot.getFile`, the image fetch, the completion call) lands in
the top-level catch, which sends the generic processing-error reply. -/
def handleMessage (env : Env) (msg : Msg) : Effects :=
  match msg.photo with
  | some sizes =>
    match sizes.getLast? with
    | none =>
        -- `msg.photo[msg.photo.length - 1]` is `undefined`, so reading
        -- `.file_id` throws and the top-level catch replies generically.
        { replies := [(msg.chatId, processingErrorMsg)] }
    | some photo =>
      match env.getFile photo.file_id with
      | .error _ =>
          { fileRequests := [photo.file_id],
            replies := [(msg.chatId, processingErrorMsg)] }
      | .ok fi =>
        match env.fetch (fileUrl env.token fi.file_path) with
        | .error _ =>
            { fileRequests := [photo.file_id],
              fetches := [fileUrl env.token fi.file_path],
              replies := [(msg.chatId, processingErrorMsg)] }
        | .ok bytes =>
            Effects.app
              { fileRequests := [photo.file_id],
                fetches := [fileUrl env.token fi.file_path] }
              (afterContent env msg.chatId
                (Content.withImage EXTRACTION_PROMPT (base64Encode bytes)
                  "image/jpeg"))
  | none =>
    match msg.text with
    | some t =>
      if t != "" then
        afterContent env msg.chatId
          (Content.text (EXTRACTION_PROMPT ++ "\n\nMessage to analyze: " ++ t))
      else
        { replies := [(msg.chatId, resendMsg)] }
    | none =>
        { replies := [(msg.chatId, resendMsg)] }

end Rich

namespace Simple

/-- The extraction instruction of the simple variant (src/index.js). -/
def EXTRACTION_PROMPT : String :=
  "You are a financial data extraction assistant. Your task is to extract financial information from messages and return it in a specific JSON format.\n\nWhen given a message, analyze it and extract:\n- Payment amount (in numbers)\n- Payment description\n- Category (e.g., food, transport, utilities)\n- Date (if mentioned)\n\nIMPORTANT: You must ONLY return a valid JSON object with the following structure:\n\x7b\n  \"value\": <number>,\n  \"description\": \"<string>\",\n  \"category\": \"<string>\",\n  \"payed_at\": \"<ISO date string or null>\",\n  \"data\": \x7b\x7d\n\x7d\n\nIf no financial information is found, return exactly: \x7b\"value\": null, \"description\": null, \"category\": null, \"payed_at\": null, \"data\": \x7b\x7d\x7d\n\nDO NOT include any additional text, explanations, or formatting - ONLY the JSON object.\n"

/-- The simple variant's confirmation message: the Date line appears only
when `payed_at` is truthy; no `payed_at` defaulting occurs. -/
def successMessage (env : Env) (fd : JsValue) : String :=
  "✅ Payment recorded!\n\n" ++
  "Amount: $" ++ (fd.getF "value").jsToString ++ "\n" ++
  "Description: " ++ (fd.getF "description").jsToString ++ "\n" ++
  "Category: " ++ (fd.getF "category").jsToString ++
  (if (fd.getF "payed_at").truthy then
    "\nDate: " ++ env.formatDate (fd.getF "payed_at")
  else "")

/-- The prompt string the simple variant sends: `msg.text` is concatenated
directly, so an absent field is coerced to the string "undefined". -/
def content (msg : Msg) : Content :=
  Content.text (EXTRACTION_PROMPT ++ "\n\nMessage to analyze: " ++
    (match msg.text with
     | some t => t
     | none => "undefined"))

/-- The simple variant's `bot.on("message")` handler (src/index.js lines
48-115). It builds the prompt by string concatenation with `msg.text`,
calls the completion endpoint once, parses, and stores or replies inline
with the same qualification test as the richer variant, but without
`payed_at` defaulting. -/
def handleMessage (env : Env) (msg : Msg) : Effects :=
  let content := content msg
  match env.gen content with
  | .error _ =>
      { aiInputs := [content], replies := [(msg.chatId, processingErrorMsg)] }
  | .ok text =>
    match env.parse text with
    | none =>
        { aiInputs := [content],
          replies := [(msg.chatId, couldNotUnderstandMsg)] }
    | some fd =>
        Effects.app { aiInputs := [content] }
          (if fd.truthy && !(fd.getF "value").isNull then
            let row : Row :=
              ⟨fd.getF "value", fd.getF "description", fd.getF "category",
               fd.getF "payed_at", fd.getF "data"⟩
            if env.insertError row then
              { attempts := [row], replies := [(msg.chatId, saveErrorMsg)] }
            else
              { attempts := [row], stored := [row],
                replies := [(msg.chatId, successMessage env fd)] }
          else
            { replies := [(msg.chatId, noPaymentInfoMsg)] })

end Simple

/-- `x` occurs in `s` as a contiguous substring. -/
def ContainsStr (s x : String) : Prop :=
  ∃ a b, s = a ++ x ++ b

/-- The row the handlers build from a parsed record: one field read per
column of the insert. -/
def rowOf (fd : JsValue) : Row :=
  ⟨fd.getF "value", fd.getF "description", fd.getF "category",
   fd.getF "payed_at", fd.getF "data"⟩

/-- The record after the richer variant's `payed_at` defaulting step:
`if (!financialData.payed_at) financialData.payed_at = new Date().toISOString()`. -/
def Rich.defaulted (env : Env) (financialData : JsValue) : JsValue :=
  if !(financialData.getF "payed_at").truthy then
    financialData.setF "payed_at" (.str env.now)
  else financialData

/-- A concrete parsed record with every field present. -/
def wFd : JsValue :=
  .obj [("value", .num 25), ("description", .str "lunch"),
        ("category", .str "food"),
        ("payed_at", .str "2026-01-15T12:00:00Z"),
        ("data", .obj [("merchant", .str "cafe")])]

/-- A concrete parsed record with a null `payed_at`. -/
def wFdNullDate : JsValue :=
  .obj [("value", .num 25), ("description", .str "lunch"),
        ("category", .str "food"), ("payed_at", .null), ("data", .obj [])]

/-- The canonical no-financial-information record. -/
def wFdNullValue : JsValue :=
  .obj [("value", .null), ("description", .null), ("category", .null),
        ("payed_at", .null), ("data", .obj [])]

/-- A concrete environment where every external call succeeds. -/
def baseEnv : Env :=
  { token := "TOKEN"
    getFile := fun _ => .ok ⟨"photos/file_1.jpg"⟩
    fetch := fun _ => .ok [1, 2, 3]
    gen := fun _ => .ok "RESPONSE"
    parse := fun _ => some wFd
    insertError := fun _ => false
    now := "2026-10-11T00:00:00.000Z"
    formatDate := fun _ => "10/11/2026" }

/-- A plain text message. -/
def wMsgText : Msg := ⟨5, some "Spent 25 on lunch", none⟩

/-- A message with neither text nor photo. -/
def wMsgNone : Msg := ⟨5, none, none⟩

/-- A photo message with two size variants. -/
def wMsgPhoto : Msg := ⟨5, none, some [⟨"ph_small"⟩, ⟨"ph_big"⟩]⟩

/-- A message whose photo field is present but an empty sequence. -/
def wMsgEmptyPhoto : Msg := ⟨5, none, some []⟩

/-- Environment where the AI response fails JSON parsing. -/
def envParseFail : Env := { baseEnv with parse := fun _ => none }

/-- Environment where the parsed record has a null value. -/
def envNullValue : Env := { baseEnv with parse := fun _ => some wFdNullValue }

/-- Environment where the parsed record has a null `payed_at`. -/
def envNullDate : Env := { baseEnv with parse := fun _ => some wFdNullDate }

/-- Environment where the store rejects every insert. -/
def envInsertFail : Env := { baseEnv with insertError := fun _ => true }

/-- Environment where the AI completion call throws. -/
def envGenFail : Env := { baseEnv with gen := fun _ => .error () }

/-- Environment where `bot.getFile` throws. -/
def envGetFileFail : Env := { baseEnv with getFile := fun _ => .error () }

/-- Environment where the image fetch throws. -/
def envFetchFail : Env := { baseEnv with fetch := fun _ => .error () }

/-- Environment where the AI response parses to a bare truthy number. -/
def envBareNum : Env := { baseEnv with parse := fun _ => some (.num 7) }

/-- Environment where the AI response parses to a falsy value. -/
def envFalsy : Env := { baseEnv with parse := fun _ => some (.bool false) }

/-- Looking up the key just assigned finds the new value. -/
theorem findF_setAssoc_self (x : JsValue) (k : String)
    (fields : List (String × JsValue)) :
    JsValue.findF (JsValue.setAssoc fields k x) k = some x := by
  induction fields with
  | nil => simp [JsValue.setAssoc, JsValue.findF]
  | cons p rest ih =>
    obtain ⟨a, b⟩ := p
    by_cases hak : a = k
    · simp [JsValue.setAssoc, JsValue.findF, hak]
    · simp [JsValue.setAssoc, JsValue.findF, hak, ih]

/-- Assigning one key leaves other keys' lookups unchanged. -/
theorem findF_setAssoc_ne (x : JsValue) (k k' : String) (h : k' ≠ k)
    (fields : List (String × JsValue)) :
    JsValue.findF (JsValue.setAssoc fields k x) k' =
      JsValue.findF fields k' := by
  induction fields with
  | nil =>
    have hkk : ¬k = k' := fun hh => h hh.symm
    simp [JsValue.setAssoc, JsValue.findF, hkk]
  | cons p rest ih =>
    obtain ⟨a, b⟩ := p
    by_cases hak : a = k
    · subst hak
      have hk'a : ¬a = k' := fun hh => h hh.symm
      simp [JsValue.setAssoc, JsValue.findF, hk'a]
    · by_cases hk'a : a = k'
      · subst hk'a
        simp [JsValue.setAssoc, JsValue.findF, hak]
      · simp [JsValue.setAssoc, JsValue.findF, hak, hk'a, ih]

/-- Reading back the field just written on an object yields the value. -/
theorem getF_setF_self (fs : List (String × JsValue)) (k : String)
    (x : JsValue) : ((JsValue.obj fs).setF k x).getF k = x := by
  simp [JsValue.setF, JsValue.getF, findF_setAssoc_self]

/-- Writing one field does not change reads of any other field. -/
theorem getF_setF_ne (v : JsValue) (k k' : String) (x : JsValue)
    (h : k' ≠ k) : (v.setF k x).getF k' = v.getF k' := by
  cases v with
  | obj fs => simp [JsValue.setF, JsValue.getF, findF_setAssoc_ne x k k' h]
  | undefined => rfl
  | null => rfl
  | bool b => rfl
  | num n => rfl
  | str s => rfl
  | arr l => rfl

/-- A truthy value is not `null`. -/
theorem truthy_ne_null (v : JsValue) (h : v.truthy = true) :
    v ≠ JsValue.null := by
  intro hv
  subst hv
  simp [JsValue.truthy] at h

/-- Only objects can carry a `null`-valued field: on every other value,
property read yields `undefined`. -/
theorem getF_null_is_obj (v : JsValue) (k : String)
    (h : v.getF k = JsValue.null) : ∃ fs, v = JsValue.obj fs := by
  cases v with
  | obj fs => exact ⟨fs, rfl⟩
  | undefined => simp [JsValue.getF] at h
  | null => simp [JsValue.getF] at h
  | bool b => simp [JsValue.getF] at h
  | num n => simp [JsValue.getF] at h
  | str s => simp [JsValue.getF] at h
  | arr l => simp [JsValue.getF] at h

/-- Unfolding of the richer `processFinancialData` in terms of the
defaulted record and the row it builds. -/
theorem rich_process_eq (env : Env) (fd : JsValue) (chatId : Int) :
    Rich.processFinancialData env fd chatId =
      if fd.truthy && !(fd.getF "value").isNull then
        if env.insertError (rowOf (Rich.defaulted env fd)) then
          { attempts := [rowOf (Rich.defaulted env fd)],
            replies := [(chatId, saveErrorMsg)] }
        else
          { attempts := [rowOf (Rich.defaulted env fd)],
            stored := [rowOf (Rich.defaulted env fd)],
            replies :=
              [(chatId, Rich.successMessage env (Rich.defaulted env fd))] }
      else { replies := [(chatId, noPaymentInfoMsg)] } := rfl

/-- `payed_at` defaulting does not touch any other field. -/
theorem defaulted_getF_ne (env : Env) (fd : JsValue) (k : String)
    (h : k ≠ "payed_at") : (Rich.defaulted env fd).getF k = fd.getF k := by
  unfold Rich.defaulted
  split
  · exact getF_setF_ne fd "payed_at" k (.str env.now) h
  · rfl

/-- When the parsed `payed_at` is null, the defaulted record carries the
current timestamp. -/
theorem defaulted_payed_at_of_null (env : Env) (fd : JsValue)
    (h : fd.getF "payed_at" = JsValue.null) :
    (Rich.defaulted env fd).getF "payed_at" = JsValue.str env.now := by
  obtain ⟨fs, rfl⟩ := getF_null_is_obj fd "payed_at" h
  unfold Rich.defaulted
  rw [h]
  simp only [JsValue.truthy, Bool.not_false, if_pos]
  exact getF_setF_self fs "payed_at" (.str env.now)

/-- A truthy parsed `payed_at` is kept unchanged by the defaulting. -/
theorem defaulted_payed_at_of_truthy (env : Env) (fd : JsValue)
    (h : (fd.getF "payed_at").truthy = true) : Rich.defaulted env fd = fd := by
  unfold Rich.defaulted
  rw [h]
  rfl

/-- After the richer defaulting, the `payed_at` column is never null. -/
theorem defaulted_payed_at_ne_null (env : Env) (fd : JsValue) :
    (Rich.defaulted env fd).getF "payed_at" ≠ JsValue.null := by
  unfold Rich.defaulted
  cases h : (fd.getF "payed_at").truthy with
  | true =>
    simp only [Bool.not_true, Bool.false_eq_true, if_false]
    exact truthy_ne_null _ h
  | false =>
    simp only [Bool.not_false, if_true]
    cases fd with
    | obj fs =>
      rw [getF_setF_self]
      simp
    | undefined => simp [JsValue.setF, JsValue.getF]
    | null => simp [JsValue.setF, JsValue.getF]
    | bool b => simp [JsValue.setF, JsValue.getF]
    | num n => simp [JsValue.setF, JsValue.getF]
    | str s => simp [JsValue.setF, JsValue.getF]
    | arr l => simp [JsValue.setF, JsValue.getF]

/-- A message with no photo and non-empty text takes the text path of the
richer handler. -/
theorem rich_text_path (env : Env) (msg : Msg) (txt : String)
    (h1 : msg.photo = none) (h2 : msg.text = some txt) (h3 : txt ≠ "") :
    Rich.handleMessage env msg =
      Rich.afterContent env msg.chatId
        (Content.text
          (Rich.EXTRACTION_PROMPT ++ "\n\nMessage to analyze: " ++ txt)) := by
  unfold Rich.handleMessage
  rw [h1, h2]
  simp [h3]

/-- When the completion succeeds and the response parses, the richer tail
is the AI call followed by `processFinancialData`. -/
theorem rich_afterContent_parsed (env : Env) (chatId : Int)
    (content : Content) (s : String) (fd : JsValue)
    (hg : env.gen content = .ok s) (hp : env.parse s = some fd) :
    Rich.afterContent env chatId content =
      Effects.app { aiInputs := [content] }
        (Rich.processFinancialData env fd chatId) := by
  unfold Rich.afterContent
  rw [hg]
  simp [hp]

/-- When the completion succeeds but the response fails to parse, the
richer tail sends only the could-not-understand reply. -/
theorem rich_afterContent_parse_fail (env : Env) (chatId : Int)
    (content : Content) (s : String)
    (hg : env.gen content = .ok s) (hp : env.parse s = none) :
    Rich.afterContent env chatId content =
      { aiInputs := [content],
        replies := [(chatId, couldNotUnderstandMsg)] } := by
  unfold Rich.afterContent
  rw [hg]
  simp [hp]

/-- When the completion call throws, the richer tail sends only the
generic processing-error reply. -/
theorem rich_afterContent_gen_fail (env : Env) (chatId : Int)
    (content : Content) (hg : env.gen content = .error ()) :
    Rich.afterContent env chatId content =
      { aiInputs := [content],
        replies := [(chatId, processingErrorMsg)] } := by
  unfold Rich.afterContent
  rw [hg]

/-- A photo message whose file resolution and fetch succeed reaches the
AI call with the encoded last variant. -/
theorem rich_photo_path (env : Env) (msg : Msg) (sizes : List PhotoSize)
    (p : PhotoSize) (fi : FileInfo) (bytes : List Nat)
    (h1 : msg.photo = some sizes) (h2 : sizes.getLast? = some p)
    (h3 : env.getFile p.file_id = .ok fi)
    (h4 : env.fetch (Rich.fileUrl env.token fi.file_path) = .ok bytes) :
    Rich.handleMessage env msg =
      Effects.app
        { fileRequests := [p.file_id],
          fetches := [Rich.fileUrl env.token fi.file_path] }
        (Rich.afterContent env msg.chatId
          (Content.withImage Rich.EXTRACTION_PROMPT (base64Encode bytes)
            "image/jpeg")) := by
  unfold Rich.handleMessage
  rw [h1]
  simp [h2, h3, h4]

/-- Unfolding of the simple handler when the completion succeeds and the
response parses. -/
theorem simple_parsed (env : Env) (msg : Msg) (s : String) (fd : JsValue)
    (hg : env.gen (Simple.content msg) = .ok s)
    (hp : env.parse s = some fd) :
    Simple.handleMessage env msg =
      Effects.app { aiInputs := [Simple.content msg] }
        (if fd.truthy && !(fd.getF "value").isNull then
          if env.insertError (rowOf fd) then
            { attempts := [rowOf fd],
              replies := [(msg.chatId, saveErrorMsg)] }
          else
            { attempts := [rowOf fd], stored := [rowOf fd],
              replies := [(msg.chatId, Simple.successMessage env fd)] }
        else { replies := [(msg.chatId, noPaymentInfoMsg)] }) := by
  simp only [Simple.handleMessage]
  rw [hg]
  simp [hp, rowOf]

/-- Unfolding of the simple handler when the response fails to parse. -/
theorem simple_parse_fail (env : Env) (msg : Msg) (s : String)
    (hg : env.gen (Simple.content msg) = .ok s)
    (hp : env.parse s = none) :
    Simple.handleMessage env msg =
      { aiInputs := [Simple.content msg],
        replies := [(msg.chatId, couldNotUnderstandMsg)] } := by
  simp only [Simple.handleMessage]
  rw [hg]
  simp [hp]

/-- Unfolding of the simple handler when the completion call throws. -/
theorem simple_gen_fail (env : Env) (msg : Msg)
    (hg : env.gen (Simple.content msg) = .error ()) :
    Simple.handleMessage env msg =
      { aiInputs := [Simple.content msg],
        replies := [(msg.chatId, processingErrorMsg)] } := by
  simp only [Simple.handleMessage]
  rw [hg]

/-- `processFinancialData` always sends exactly one reply to the chat. -/
theorem rich_process_one_reply (env : Env) (fd : JsValue) (chatId : Int) :
    ∃ r, (Rich.processFinancialData env fd chatId).replies =
      [(chatId, r)] := by
  rw [rich_process_eq]
  split
  · split
    · exact ⟨saveErrorMsg, rfl⟩
    · exact ⟨_, rfl⟩
  · exact ⟨noPaymentInfoMsg, rfl⟩


/-- A message with neither photo nor text field gets the resend guidance. -/
theorem rich_no_content (env : Env) (msg : Msg) (h1 : msg.photo = none)
    (h2 : msg.text = none) :
    Rich.handleMessage env msg =
      { replies := [(msg.chatId, resendMsg)] } := by
  unfold Rich.handleMessage
  rw [h1, h2]

/-- A message with empty (falsy) text and no photo also gets the resend
guidance. -/
theorem rich_empty_text (env : Env) (msg : Msg) (h1 : msg.photo = none)
    (h2 : msg.text = some "") :
    Rich.handleMessage env msg =
      { replies := [(msg.chatId, resendMsg)] } := by
  unfold Rich.handleMessage
  rw [h1, h2]
  simp

/-- A present-but-empty photo array reaches the top-level catch (the
`.file_id` read on the undefined last element throws). -/
theorem rich_empty_photo (env : Env) (msg : Msg) (sizes : List PhotoSize)
    (h1 : msg.photo = some sizes) (h2 : sizes.getLast? = none) :
    Rich.handleMessage env msg =
      { replies := [(msg.chatId, processingErrorMsg)] } := by
  unfold Rich.handleMessage
  rw [h1]
  simp [h2]

/-- A throwing `bot.getFile` reaches the top-level catch. -/
theorem rich_getFile_fail (env : Env) (msg : Msg) (sizes : List PhotoSize)
    (p : PhotoSize) (h1 : msg.photo = some sizes)
    (h2 : sizes.getLast? = some p)
    (h3 : env.getFile p.file_id = .error ()) :
    Rich.handleMessage env msg =
      { fileRequests := [p.file_id],
        replies := [(msg.chatId, processingErrorMsg)] } := by
  unfold Rich.handleMessage
  rw [h1]
  simp [h2, h3]

/-- A throwing image fetch reaches the top-level catch. -/
theorem rich_fetch_fail (env : Env) (msg : Msg) (sizes : List PhotoSize)
    (p : PhotoSize) (fi : FileInfo) (h1 : msg.photo = some sizes)
    (h2 : sizes.getLast? = some p) (h3 : env.getFile p.file_id = .ok fi)
    (h4 : env.fetch (Rich.fileUrl env.token fi.file_path) = .error ()) :
    Rich.handleMessage env msg =
      { fileRequests := [p.file_id],
        fetches := [Rich.fileUrl env.token fi.file_path],
        replies := [(msg.chatId, processingErrorMsg)] } := by
  unfold Rich.handleMessage
  rw [h1]
  simp [h2, h3, h4]

/-- The richer tail always sends exactly one reply to the chat. -/
theorem rich_afterContent_one_reply (env : Env) (chatId : Int)
    (content : Content) :
    ∃ r, (Rich.afterContent env chatId content).replies =
      [(chatId, r)] := by
  cases hg : env.gen content with
  | error e =>
    cases e
    exact ⟨processingErrorMsg,
      by rw [rich_afterContent_gen_fail env chatId content hg]⟩
  | ok s =>
    cases hp : env.parse s with
    | none =>
      exact ⟨couldNotUnderstandMsg,
        by rw [rich_afterContent_parse_fail env chatId content s hg hp]⟩
    | some fd =>
      obtain ⟨r, hr⟩ := rich_process_one_reply env fd chatId
      exact ⟨r, by
        rw [rich_afterContent_parsed env chatId content s fd hg hp]
        simp [Effects.app, hr]⟩

/-- The richer handler sends exactly one reply to the originating chat on
every path, including every modelled throw site. -/
theorem rich_one_reply (env : Env) (msg : Msg) :
    ∃ r, (Rich.handleMessage env msg).replies = [(msg.chatId, r)] := by
  cases hph : msg.photo with
  | none =>
    cases htx : msg.text with
    | none => exact ⟨resendMsg, by rw [rich_no_content env msg hph htx]⟩
    | some t =>
      by_cases ht : t = ""
      · subst ht
        exact ⟨resendMsg, by rw [rich_empty_text env msg hph htx]⟩
      · obtain ⟨r, hr⟩ := rich_afterContent_one_reply env msg.chatId
          (Content.text
            (Rich.EXTRACTION_PROMPT ++ "\n\nMessage to analyze: " ++ t))
        exact ⟨r, by rw [rich_text_path env msg t hph htx ht]; exact hr⟩
  | some sizes =>
    cases hl : sizes.getLast? with
    | none =>
      exact ⟨processingErrorMsg,
        by rw [rich_empty_photo env msg sizes hph hl]⟩
    | some p =>
      cases hgf : env.getFile p.file_id with
      | error e =>
        cases e
        exact ⟨processingErrorMsg,
          by rw [rich_getFile_fail env msg sizes p hph hl hgf]⟩
      | ok fi =>
        cases hft : env.fetch (Rich.fileUrl env.token fi.file_path) with
        | error e =>
          cases e
          exact ⟨processingErrorMsg,
            by rw [rich_fetch_fail env msg sizes p fi hph hl hgf hft]⟩
        | ok bytes =>
          obtain ⟨r, hr⟩ := rich_afterContent_one_reply env msg.chatId
            (Content.withImage Rich.EXTRACTION_PROMPT (base64Encode bytes)
              "image/jpeg")
          exact ⟨r, by
            rw [rich_photo_path env msg sizes p fi bytes hph hl hgf hft]
            simp [Effects.app, hr]⟩

/-- The simple handler sends exactly one reply to the originating chat on
every path. -/
theorem simple_one_reply (env : Env) (msg : Msg) :
    ∃ r, (Simple.handleMessage env msg).replies = [(msg.chatId, r)] := by
  cases hg : env.gen (Simple.content msg) with
  | error e =>
    cases e
    exact ⟨processingErrorMsg, by rw [simple_gen_fail env msg hg]⟩
  | ok s =>
    cases hp : env.parse s with
    | none =>
      exact ⟨couldNotUnderstandMsg,
        by rw [simple_parse_fail env msg s hg hp]⟩
    | some fd =>
      rw [simple_parsed env msg s fd hg hp]
      split
      · split
        · exact ⟨saveErrorMsg, by simp [Effects.app]⟩
        · exact ⟨Simple.successMessage env fd, by simp [Effects.app]⟩
      · exact ⟨noPaymentInfoMsg, by simp [Effects.app]⟩

/-- Base64 of a non-empty byte sequence is a non-empty string. -/
theorem base64Encode_ne_empty (bytes : List Nat) (h : bytes ≠ []) :
    base64Encode bytes ≠ "" := by
  intro he
  have hc : base64Chars bytes = [] := by
    have hd := congrArg String.data he
    simpa [base64Encode] using hd
  cases bytes with
  | nil => exact h rfl
  | cons a rest =>
    cases rest with
    | nil => simp [base64Chars] at hc
    | cons b rest2 =>
      cases rest2 with
      | nil => simp [base64Chars] at hc
      | cons c rest3 => simp [base64Chars] at hc

/-- Prepending keeps a known head character of the string data. -/
theorem exists_head_append (a b : String) (c : Char)
    (h : ∃ r, a.data = c :: r) : ∃ r, (a ++ b).data = c :: r := by
  obtain ⟨r, hr⟩ := h
  exact ⟨r ++ b.data, by rw [String.data_append, hr, List.cons_append]⟩

/-- The richer confirmation message always starts with the check mark. -/
theorem rich_success_head (env : Env) (fd : JsValue) :
    ∃ r, (Rich.successMessage env fd).data = '✅' :: r := by
  unfold Rich.successMessage
  iterate 12 apply exists_head_append
  exact ⟨_, rfl⟩

/-- The simple confirmation message always starts with the check mark. -/
theorem simple_success_head (env : Env) (fd : JsValue) :
    ∃ r, (Simple.successMessage env fd).data = '✅' :: r := by
  unfold Simple.successMessage
  iterate 8 apply exists_head_append
  exact ⟨_, rfl⟩

/-- The richer confirmation message is never the save-error reply. -/
theorem rich_success_ne_saveError (env : Env) (fd : JsValue) :
    Rich.successMessage env fd ≠ saveErrorMsg := by
  intro h
  obtain ⟨r, hr⟩ := rich_success_head env fd
  rw [h] at hr
  have h1 : saveErrorMsg.data.head? = some '✅' := by rw [hr]; rfl
  have h2 : saveErrorMsg.data.head? = some 'S' := rfl
  rw [h2] at h1
  simp at h1

/-- The simple confirmation message is never the save-error reply. -/
theorem simple_success_ne_saveError (env : Env) (fd : JsValue) :
    Simple.successMessage env fd ≠ saveErrorMsg := by
  intro h
  obtain ⟨r, hr⟩ := simple_success_head env fd
  rw [h] at hr
  have h1 : saveErrorMsg.data.head? = some '✅' := by rw [hr]; rfl
  have h2 : saveErrorMsg.data.head? = some 'S' := rfl
  rw [h2] at h1
  simp at h1

/-- The richer confirmation message contains the interpolated value. -/
theorem rich_success_contains_value (env : Env) (fd : JsValue) :
    ContainsStr (Rich.successMessage env fd)
      ((fd.getF "value").jsToString) := by
  refine ⟨"✅ Payment recorded!\n\n" ++ "Amount: $",
    "\n" ++ "Description: " ++ (fd.getF "description").jsToString ++
    "\n" ++ "Category: " ++ (fd.getF "category").jsToString ++
    "\n" ++ "Date: " ++ env.formatDate (fd.getF "payed_at") ++
    Rich.dataLines (fd.getF "data"), ?_⟩
  simp [Rich.successMessage, String.append_assoc]

/-- The richer confirmation message contains the interpolated
description. -/
theorem rich_success_contains_description (env : Env) (fd : JsValue) :
    ContainsStr (Rich.successMessage env fd)
      ((fd.getF "description").jsToString) := by
  refine ⟨"✅ Payment recorded!\n\n" ++ "Amount: $" ++
    (fd.getF "value").jsToString ++ "\n" ++ "Description: ",
    "\n" ++ "Category: " ++ (fd.getF "category").jsToString ++
    "\n" ++ "Date: " ++ env.formatDate (fd.getF "payed_at") ++
    Rich.dataLines (fd.getF "data"), ?_⟩
  simp [Rich.successMessage, String.append_assoc]

/-- The richer confirmation message contains the interpolated category. -/
theorem rich_success_contains_category (env : Env) (fd : JsValue) :
    ContainsStr (Rich.successMessage env fd)
      ((fd.getF "category").jsToString) := by
  refine ⟨"✅ Payment recorded!\n\n" ++ "Amount: $" ++
    (fd.getF "value").jsToString ++ "\n" ++ "Description: " ++
    (fd.getF "description").jsToString ++ "\n" ++ "Category: ",
    "\n" ++ "Date: " ++ env.formatDate (fd.getF "payed_at") ++
    Rich.dataLines (fd.getF "data"), ?_⟩
  simp [Rich.successMessage, String.append_assoc]

/-- The simple confirmation message contains the interpolated value. -/
theorem simple_success_contains_value (env : Env) (fd : JsValue) :
    ContainsStr (Simple.successMessage env fd)
      ((fd.getF "value").jsToString) := by
  refine ⟨"✅ Payment recorded!\n\n" ++ "Amount: $",
    "\n" ++ "Description: " ++ (fd.getF "description").jsToString ++
    "\n" ++ "Category: " ++ (fd.getF "category").jsToString ++
    (if (fd.getF "payed_at").truthy then
      "\nDate: " ++ env.formatDate (fd.getF "payed_at")
    else ""), ?_⟩
  simp [Simple.successMessage, String.append_assoc]

/-- The simple confirmation message contains the interpolated
description. -/
theorem simple_success_contains_description (env : Env) (fd : JsValue) :
    ContainsStr (Simple.successMessage env fd)
      ((fd.getF "description").jsToString) := by
  refine ⟨"✅ Payment recorded!\n\n" ++ "Amount: $" ++
    (fd.getF "value").jsToString ++ "\n" ++ "Description: ",
    "\n" ++ "Category: " ++ (fd.getF "category").jsToString ++
    (if (fd.getF "payed_at").truthy then
      "\nDate: " ++ env.formatDate (fd.getF "payed_at")
    else ""), ?_⟩
  simp [Simple.successMessage, String.append_assoc]

/-- The simple confirmation message contains the interpolated category. -/
theorem simple_success_contains_category (env : Env) (fd : JsValue) :
    ContainsStr (Simple.successMessage env fd)
      ((fd.getF "category").jsToString) := by
  refine ⟨"✅ Payment recorded!\n\n" ++ "Amount: $" ++
    (fd.getF "value").jsToString ++ "\n" ++ "Description: " ++
    (fd.getF "description").jsToString ++ "\n" ++ "Category: ",
    (if (fd.getF "payed_at").truthy then
      "\nDate: " ++ env.formatDate (fd.getF "payed_at")
    else ""), ?_⟩
  simp [Simple.successMessage, String.append_assoc]

/-- C1: for every inbound message whose parsed record has a non-null
value and whose store insert succeeds, exactly one row is inserted whose
stored value, description, category and data equal the parsed record's
fields — with `payed_at` kept when it was a (truthy) date string and
defaulted to the current time when it was null, in the richer variant,
and kept verbatim in the simple variant — and exactly one success reply
is sent containing the value, description and category verbatim. Both
observed handler variants are covered. -/
theorem C1_success_persists_row_and_confirms :
    (∀ (env : Env) (msg : Msg) (txt s : String) (fd : JsValue),
      msg.photo = none → msg.text = some txt → txt ≠ "" →
      env.gen (Content.text
        (Rich.EXTRACTION_PROMPT ++ "\n\nMessage to analyze: " ++ txt)) =
          .ok s →
      env.parse s = some fd →
      fd.truthy = true → (fd.getF "value").isNull = false →
      env.insertError (rowOf (Rich.defaulted env fd)) = false →
      Rich.handleMessage env msg =
        { aiInputs := [Content.text
            (Rich.EXTRACTION_PROMPT ++ "\n\nMessage to analyze: " ++ txt)],
          attempts := [rowOf (Rich.defaulted env fd)],
          stored := [rowOf (Rich.defaulted env fd)],
          replies := [(msg.chatId,
            Rich.successMessage env (Rich.defaulted env fd))] } ∧
      (rowOf (Rich.defaulted env fd)).value = fd.getF "value" ∧
      (rowOf (Rich.defaulted env fd)).description =
        fd.getF "description" ∧
      (rowOf (Rich.defaulted env fd)).category = fd.getF "category" ∧
      (rowOf (Rich.defaulted env fd)).data = fd.getF "data" ∧
      (∀ sdate, sdate ≠ "" → fd.getF "payed_at" = .str sdate →
        (rowOf (Rich.defaulted env fd)).payed_at = .str sdate) ∧
      (fd.getF "payed_at" = .null →
        (rowOf (Rich.defaulted env fd)).payed_at = .str env.now) ∧
      ContainsStr (Rich.successMessage env (Rich.defaulted env fd))
        ((fd.getF "value").jsToString) ∧
      ContainsStr (Rich.successMessage env (Rich.defaulted env fd))
        ((fd.getF "description").jsToString) ∧
      ContainsStr (Rich.successMessage env (Rich.defaulted env fd))
        ((fd.getF "category").jsToString)) ∧
    (∀ (env : Env) (msg : Msg) (s : String) (fd : JsValue),
      env.gen (Simple.content msg) = .ok s →
      env.parse s = some fd →
      fd.truthy = true → (fd.getF "value").isNull = false →
      env.insertError (rowOf fd) = false →
      Simple.handleMessage env msg =
        { aiInputs := [Simple.content msg],
          attempts := [rowOf fd],
          stored := [rowOf fd],
          replies := [(msg.chatId, Simple.successMessage env fd)] } ∧
      rowOf fd =
        ⟨fd.getF "value", fd.getF "description", fd.getF "category",
         fd.getF "payed_at", fd.getF "data"⟩ ∧
      ContainsStr (Simple.successMessage env fd)
        ((fd.getF "value").jsToString) ∧
      ContainsStr (Simple.successMessage env fd)
        ((fd.getF "description").jsToString) ∧
      ContainsStr (Simple.successMessage env fd)
        ((fd.getF "category").jsToString)) := by
  constructor
  · intro env msg txt s fd h1 h2 h3 hg hp htr hnull hins
    refine ⟨?_, ?_, ?_, ?_, ?_, ?_, ?_, ?_, ?_, ?_⟩
    · rw [rich_text_path env msg txt h1 h2 h3,
        rich_afterContent_parsed env msg.chatId _ s fd hg hp,
        rich_process_eq]
      simp [htr, hnull, hins, Effects.app]
    · simpa [rowOf] using defaulted_getF_ne env fd "value" (by decide)
    · simpa [rowOf] using defaulted_getF_ne env fd "description" (by decide)
    · simpa [rowOf] using defaulted_getF_ne env fd "category" (by decide)
    · simpa [rowOf] using defaulted_getF_ne env fd "data" (by decide)
    · intro sdate hne hstr
      have htr' : (fd.getF "payed_at").truthy = true := by
        rw [hstr]
        simp [JsValue.truthy, hne]
      simp [rowOf, defaulted_payed_at_of_truthy env fd htr', hstr]
    · intro hnulldate
      simpa [rowOf] using defaulted_payed_at_of_null env fd hnulldate
    · have := rich_success_contains_value env (Rich.defaulted env fd)
      rwa [defaulted_getF_ne env fd "value" (by decide)] at this
    · have := rich_success_contains_description env (Rich.defaulted env fd)
      rwa [defaulted_getF_ne env fd "description" (by decide)] at this
    · have := rich_success_contains_category env (Rich.defaulted env fd)
      rwa [defaulted_getF_ne env fd "category" (by decide)] at this
  · intro env msg s fd hg hp htr hnull hins
    refine ⟨?_, rfl, simple_success_contains_value env fd,
      simple_success_contains_description env fd,
      simple_success_contains_category env fd⟩
    rw [simple_parsed env msg s fd hg hp]
    simp [htr, hnull, hins, Effects.app]

/-- C1 witness: concrete successful run through both handlers. -/
theorem C1_witness :
    wFd.truthy = true ∧ (wFd.getF "value").isNull = false ∧
    baseEnv.insertError (rowOf (Rich.defaulted baseEnv wFd)) = false ∧
    (Rich.handleMessage baseEnv wMsgText).stored =
      [rowOf (Rich.defaulted baseEnv wFd)] ∧
    (Simple.handleMessage baseEnv wMsgText).stored = [rowOf wFd] :=
  ⟨rfl, rfl, rfl,
   by rw [(C1_success_persists_row_and_confirms.1 baseEnv wMsgText
      "Spent 25 on lunch" "RESPONSE" wFd rfl rfl (by decide) rfl rfl rfl
      rfl rfl).1],
   by rw [(C1_success_persists_row_and_confirms.2 baseEnv wMsgText
      "RESPONSE" wFd rfl rfl rfl rfl rfl).1]⟩

/-- C2: for every inbound message whose parsed record has a null value,
no row is persisted (zero store writes, not even an attempt) and exactly
one reply with the could-not-find-payment-information guidance is sent;
the guidance text differs from every error reply. Both handler variants
are covered. -/
theorem C2_null_value_no_write_guidance_reply :
    (∀ (env : Env) (msg : Msg) (txt s : String) (fd : JsValue),
      msg.photo = none → msg.text = some txt → txt ≠ "" →
      env.gen (Content.text
        (Rich.EXTRACTION_PROMPT ++ "\n\nMessage to analyze: " ++ txt)) =
          .ok s →
      env.parse s = some fd →
      fd.getF "value" = JsValue.null →
      Rich.handleMessage env msg =
        { aiInputs := [Content.text
            (Rich.EXTRACTION_PROMPT ++ "\n\nMessage to analyze: " ++ txt)],
          replies := [(msg.chatId, noPaymentInfoMsg)] }) ∧
    (∀ (env : Env) (msg : Msg) (s : String) (fd : JsValue),
      env.gen (Simple.content msg) = .ok s →
      env.parse s = some fd →
      fd.getF "value" = JsValue.null →
      Simple.handleMessage env msg =
        { aiInputs := [Simple.content msg],
          replies := [(msg.chatId, noPaymentInfoMsg)] }) ∧
    noPaymentInfoMsg ≠ processingErrorMsg ∧
    noPaymentInfoMsg ≠ couldNotUnderstandMsg ∧
    noPaymentInfoMsg ≠ saveErrorMsg := by
  refine ⟨?_, ?_, by decide, by decide, by decide⟩
  · intro env msg txt s fd h1 h2 h3 hg hp hnull
    rw [rich_text_path env msg txt h1 h2 h3,
      rich_afterContent_parsed env msg.chatId _ s fd hg hp,
      rich_process_eq]
    simp [hnull, JsValue.isNull, Effects.app]
  · intro env msg s fd hg hp hnull
    rw [simple_parsed env msg s fd hg hp]
    simp [hnull, JsValue.isNull, Effects.app]

/-- C2 witness: the canonical null-object response on both handlers. -/
theorem C2_witness :
    wFdNullValue.getF "value" = JsValue.null ∧
    Rich.handleMessage envNullValue wMsgText =
      { aiInputs := [Content.text (Rich.EXTRACTION_PROMPT ++
          "\n\nMessage to analyze: " ++ "Spent 25 on lunch")],
        replies := [(5, noPaymentInfoMsg)] } ∧
    Simple.handleMessage envNullValue wMsgText =
      { aiInputs := [Simple.content wMsgText],
        replies := [(5, noPaymentInfoMsg)] } :=
  ⟨rfl,
   C2_null_value_no_write_guidance_reply.1 envNullValue wMsgText
     "Spent 25 on lunch" "RESPONSE" wFdNullValue rfl rfl (by decide)
     rfl rfl rfl,
   C2_null_value_no_write_guidance_reply.2.1 envNullValue wMsgText
     "RESPONSE" wFdNullValue rfl rfl rfl⟩

/-- C3: for every inbound message whose extraction response fails strict
JSON parsing, the handler makes exactly one completion call, performs
zero store writes, and sends exactly one could-not-understand reply, a
text distinct from the generic processing-error reply. Both handler
variants are covered. -/
theorem C3_parse_failure_no_write_specific_reply :
    (∀ (env : Env) (msg : Msg) (txt s : String),
      msg.photo = none → msg.text = some txt → txt ≠ "" →
      env.gen (Content.text
        (Rich.EXTRACTION_PROMPT ++ "\n\nMessage to analyze: " ++ txt)) =
          .ok s →
      env.parse s = none →
      Rich.handleMessage env msg =
        { aiInputs := [Content.text
            (Rich.EXTRACTION_PROMPT ++ "\n\nMessage to analyze: " ++ txt)],
          replies := [(msg.chatId, couldNotUnderstandMsg)] }) ∧
    (∀ (env : Env) (msg : Msg) (s : String),
      env.gen (Simple.content msg) = .ok s →
      env.parse s = none →
      Simple.handleMessage env msg =
        { aiInputs := [Simple.content msg],
          replies := [(msg.chatId, couldNotUnderstandMsg)] }) ∧
    couldNotUnderstandMsg ≠ processingErrorMsg := by
  refine ⟨?_, simple_parse_fail, by decide⟩
  intro env msg txt s h1 h2 h3 hg hp
  rw [rich_text_path env msg txt h1 h2 h3,
    rich_afterContent_parse_fail env msg.chatId _ s hg hp]

/-- C3 witness: a non-JSON response on both handlers. -/
theorem C3_witness :
    envParseFail.parse "RESPONSE" = none ∧
    Rich.handleMessage envParseFail wMsgText =
      { aiInputs := [Content.text (Rich.EXTRACTION_PROMPT ++
          "\n\nMessage to analyze: " ++ "Spent 25 on lunch")],
        replies := [(5, couldNotUnderstandMsg)] } ∧
    Simple.handleMessage envParseFail wMsgText =
      { aiInputs := [Simple.content wMsgText],
        replies := [(5, couldNotUnderstandMsg)] } :=
  ⟨rfl,
   C3_parse_failure_no_write_specific_reply.1 envParseFail wMsgText
     "Spent 25 on lunch" "RESPONSE" rfl rfl (by decide) rfl rfl,
   C3_parse_failure_no_write_specific_reply.2.1 envParseFail wMsgText
     "RESPONSE" rfl rfl⟩

/-- C4: in the richer variant, a parsed record with non-null value and
null `payed_at` is inserted with the current wall-clock time substituted,
and more generally no inserted row ever carries a null `payed_at`. -/
theorem C4_null_payed_at_defaulted_to_now :
    (∀ (env : Env) (fd : JsValue) (chatId : Int),
      fd.truthy = true → (fd.getF "value").isNull = false →
      fd.getF "payed_at" = JsValue.null →
      (Rich.processFinancialData env fd chatId).attempts =
        [rowOf (Rich.defaulted env fd)] ∧
      (rowOf (Rich.defaulted env fd)).payed_at = JsValue.str env.now) ∧
    (∀ (env : Env) (fd : JsValue) (chatId : Int) (r : Row),
      r ∈ (Rich.processFinancialData env fd chatId).attempts →
      r.payed_at ≠ JsValue.null) := by
  constructor
  · intro env fd chatId htr hnull hpd
    constructor
    · rw [rich_process_eq]
      by_cases hins : env.insertError (rowOf (Rich.defaulted env fd)) = true
      · simp [htr, hnull, hins]
      · simp [htr, hnull, hins]
    · simpa [rowOf] using defaulted_payed_at_of_null env fd hpd
  · intro env fd chatId r hr
    rw [rich_process_eq] at hr
    by_cases hq : (fd.truthy && !(fd.getF "value").isNull) = true
    · rw [if_pos hq] at hr
      by_cases hins : env.insertError (rowOf (Rich.defaulted env fd)) = true
      · rw [if_pos hins] at hr
        simp at hr
        rw [hr]
        simpa [rowOf] using defaulted_payed_at_ne_null env fd
      · rw [if_neg hins] at hr
        simp at hr
        rw [hr]
        simpa [rowOf] using defaulted_payed_at_ne_null env fd
    · rw [if_neg hq] at hr
      simp at hr

/-- C4 witness: the concrete null-`payed_at` record gets the current
time. -/
theorem C4_witness :
    wFdNullDate.truthy = true ∧
    (wFdNullDate.getF "value").isNull = false ∧
    wFdNullDate.getF "payed_at" = JsValue.null ∧
    (Rich.processFinancialData envNullDate wFdNullDate 5).attempts =
      [rowOf (Rich.defaulted envNullDate wFdNullDate)] ∧
    (rowOf (Rich.defaulted envNullDate wFdNullDate)).payed_at =
      JsValue.str "2026-10-11T00:00:00.000Z" :=
  ⟨rfl, rfl, rfl,
   (C4_null_payed_at_defaulted_to_now.1 envNullDate wFdNullDate 5
     rfl rfl rfl).1,
   by rw [(C4_null_payed_at_defaulted_to_now.1 envNullDate wFdNullDate 5
     rfl rfl rfl).2]; rfl⟩

/-- C5: for every inbound message whose store insert is rejected, exactly
one insert is attempted, no row persists, exactly one save-error reply is
sent, and no successful-confirmation reply is sent (the save-error text
is never a confirmation message). Both handler variants are covered. -/
theorem C5_insert_rejected_no_persist_error_reply :
    (∀ (env : Env) (msg : Msg) (txt s : String) (fd : JsValue),
      msg.photo = none → msg.text = some txt → txt ≠ "" →
      env.gen (Content.text
        (Rich.EXTRACTION_PROMPT ++ "\n\nMessage to analyze: " ++ txt)) =
          .ok s →
      env.parse s = some fd →
      fd.truthy = true → (fd.getF "value").isNull = false →
      env.insertError (rowOf (Rich.defaulted env fd)) = true →
      Rich.handleMessage env msg =
        { aiInputs := [Content.text
            (Rich.EXTRACTION_PROMPT ++ "\n\nMessage to analyze: " ++ txt)],
          attempts := [rowOf (Rich.defaulted env fd)],
          replies := [(msg.chatId, saveErrorMsg)] }) ∧
    (∀ (env : Env) (msg : Msg) (s : String) (fd : JsValue),
      env.gen (Simple.content msg) = .ok s →
      env.parse s = some fd →
      fd.truthy = true → (fd.getF "value").isNull = false →
      env.insertError (rowOf fd) = true →
      Simple.handleMessage env msg =
        { aiInputs := [Simple.content msg],
          attempts := [rowOf fd],
          replies := [(msg.chatId, saveErrorMsg)] }) ∧
    (∀ (e : Env) (fd2 : JsValue), saveErrorMsg ≠ Rich.successMessage e fd2) ∧
    (∀ (e : Env) (fd2 : JsValue),
      saveErrorMsg ≠ Simple.successMessage e fd2) := by
  refine ⟨?_, ?_, fun e fd2 h => rich_success_ne_saveError e fd2 h.symm,
    fun e fd2 h => simple_success_ne_saveError e fd2 h.symm⟩
  · intro env msg txt s fd h1 h2 h3 hg hp htr hnull hins
    rw [rich_text_path env msg txt h1 h2 h3,
      rich_afterContent_parsed env msg.chatId _ s fd hg hp,
      rich_process_eq]
    simp [htr, hnull, hins, Effects.app]
  · intro env msg s fd hg hp htr hnull hins
    rw [simple_parsed env msg s fd hg hp]
    simp [htr, hnull, hins, Effects.app]

/-- C5 witness: a rejected insert on both handlers. -/
theorem C5_witness :
    envInsertFail.insertError
      (rowOf (Rich.defaulted envInsertFail wFd)) = true ∧
    Rich.handleMessage envInsertFail wMsgText =
      { aiInputs := [Content.text (Rich.EXTRACTION_PROMPT ++
          "\n\nMessage to analyze: " ++ "Spent 25 on lunch")],
        attempts := [rowOf (Rich.defaulted envInsertFail wFd)],
        replies := [(5, saveErrorMsg)] } ∧
    Simple.handleMessage envInsertFail wMsgText =
      { aiInputs := [Simple.content wMsgText],
        attempts := [rowOf wFd],
        replies := [(5, saveErrorMsg)] } :=
  ⟨rfl,
   C5_insert_rejected_no_persist_error_reply.1 envInsertFail wMsgText
     "Spent 25 on lunch" "RESPONSE" wFd rfl rfl (by decide) rfl rfl rfl
     rfl rfl,
   C5_insert_rejected_no_persist_error_reply.2.1 envInsertFail wMsgText
     "RESPONSE" wFd rfl rfl rfl rfl rfl⟩

/-- `processFinancialData` performs no file, fetch or AI effects. -/
theorem rich_process_no_pre_effects (env : Env) (fd : JsValue)
    (chatId : Int) :
    (Rich.processFinancialData env fd chatId).fileRequests = [] ∧
    (Rich.processFinancialData env fd chatId).fetches = [] ∧
    (Rich.processFinancialData env fd chatId).aiInputs = [] := by
  by_cases hq : (fd.truthy && !(fd.getF "value").isNull) = true
  · by_cases hins : env.insertError (rowOf (Rich.defaulted env fd)) = true
    · simp [rich_process_eq, hq, hins]
    · simp [rich_process_eq, hq, hins]
  · simp [rich_process_eq, hq]

/-- The richer tail performs exactly one AI call and no file or fetch
effects. -/
theorem rich_afterContent_effects (env : Env) (chatId : Int)
    (content : Content) :
    (Rich.afterContent env chatId content).fileRequests = [] ∧
    (Rich.afterContent env chatId content).fetches = [] ∧
    (Rich.afterContent env chatId content).aiInputs = [content] := by
  cases hg : env.gen content with
  | error e =>
    cases e
    rw [rich_afterContent_gen_fail env chatId content hg]
    exact ⟨rfl, rfl, rfl⟩
  | ok s =>
    cases hp : env.parse s with
    | none =>
      rw [rich_afterContent_parse_fail env chatId content s hg hp]
      exact ⟨rfl, rfl, rfl⟩
    | some fd =>
      rw [rich_afterContent_parsed env chatId content s fd hg hp]
      obtain ⟨e1, e2, e3⟩ := rich_process_no_pre_effects env fd chatId
      exact ⟨by simp [Effects.app, e1], by simp [Effects.app, e2],
        by simp [Effects.app, e3]⟩

/-- C6: a message containing neither text nor a photo gets exactly one
resend-guidance reply and nothing else: no AI completion call, no store
write; the guidance text is not the generic error reply. -/
theorem C6_no_content_prompts_resend :
    (∀ (env : Env) (msg : Msg),
      msg.photo = none → msg.text = none →
      Rich.handleMessage env msg =
        { replies := [(msg.chatId, resendMsg)] }) ∧
    resendMsg ≠ processingErrorMsg :=
  ⟨fun env msg h1 h2 => rich_no_content env msg h1 h2, by decide⟩

/-- C6 witness: the concrete empty message. -/
theorem C6_witness :
    wMsgNone.photo = none ∧ wMsgNone.text = none ∧
    Rich.handleMessage baseEnv wMsgNone =
      { replies := [(5, resendMsg)] } :=
  ⟨rfl, rfl, C6_no_content_prompts_resend.1 baseEnv wMsgNone rfl rfl⟩

/-- C6 counterexample: in the simple variant (src/index.js), a message
with neither text nor a photo does not get the resend guidance and the
pipeline does not stop: the handler concatenates the absent text as
"undefined" into the prompt, makes an AI completion call, and here (the
AI response parsing to a qualifying record) replies with a confirmation
— never the resend prompt. -/
theorem C6_counterexample :
    wMsgNone.text = none ∧ wMsgNone.photo = none ∧
    (Simple.handleMessage baseEnv wMsgNone).aiInputs =
      [Content.text (Simple.EXTRACTION_PROMPT ++
        "\n\nMessage to analyze: " ++ "undefined")] ∧
    (Simple.handleMessage baseEnv wMsgNone).replies =
      [(5, Simple.successMessage baseEnv wFd)] ∧
    Simple.successMessage baseEnv wFd ≠ resendMsg :=
  ⟨rfl, rfl, rfl, rfl, by decide⟩

/-- C7: for a photo message, the handler resolves the last photo variant,
fetches the constructed file URL, and hands the extraction client exactly
one content carrying a non-empty base64 payload tagged image/jpeg
(non-empty because the fetched image bytes are non-empty). -/
theorem C7_photo_normalized_to_base64 :
    ∀ (env : Env) (msg : Msg) (sizes : List PhotoSize) (p : PhotoSize)
      (fi : FileInfo) (bytes : List Nat),
      msg.photo = some sizes → sizes.getLast? = some p →
      env.getFile p.file_id = .ok fi →
      env.fetch (Rich.fileUrl env.token fi.file_path) = .ok bytes →
      bytes ≠ [] →
      (Rich.handleMessage env msg).fileRequests = [p.file_id] ∧
      (Rich.handleMessage env msg).fetches =
        [Rich.fileUrl env.token fi.file_path] ∧
      (Rich.handleMessage env msg).aiInputs =
        [Content.withImage Rich.EXTRACTION_PROMPT (base64Encode bytes)
          "image/jpeg"] ∧
      base64Encode bytes ≠ "" := by
  intro env msg sizes p fi bytes h1 h2 h3 h4 h5
  rw [rich_photo_path env msg sizes p fi bytes h1 h2 h3 h4]
  obtain ⟨e1, e2, e3⟩ := rich_afterContent_effects env msg.chatId
    (Content.withImage Rich.EXTRACTION_PROMPT (base64Encode bytes)
      "image/jpeg")
  exact ⟨by simp [Effects.app, e1], by simp [Effects.app, e2],
    by simp [Effects.app, e3], base64Encode_ne_empty bytes h5⟩

/-- C7 witness: a two-variant photo message; the big (last) variant is
fetched and encoded. -/
theorem C7_witness :
    wMsgPhoto.photo = some [⟨"ph_small"⟩, ⟨"ph_big"⟩] ∧
    ([(⟨"ph_small"⟩ : PhotoSize), ⟨"ph_big"⟩].getLast? =
      some ⟨"ph_big"⟩) ∧
    ([1, 2, 3] : List Nat) ≠ [] ∧
    (Rich.handleMessage baseEnv wMsgPhoto).fileRequests = ["ph_big"] ∧
    (Rich.handleMessage baseEnv wMsgPhoto).aiInputs =
      [Content.withImage Rich.EXTRACTION_PROMPT (base64Encode [1, 2, 3])
        "image/jpeg"] ∧
    base64Encode [1, 2, 3] ≠ "" := by
  have h := C7_photo_normalized_to_base64 baseEnv wMsgPhoto
    [⟨"ph_small"⟩, ⟨"ph_big"⟩] ⟨"ph_big"⟩ ⟨"photos/file_1.jpg"⟩
    [1, 2, 3] rfl rfl rfl rfl (by decide)
  exact ⟨rfl, rfl, by decide, h.1, h.2.2.1, h.2.2.2⟩

/-- C8: every modelled throw site (completion call, file resolution,
image fetch) ends the handling of the message with exactly one generic
processing-error reply, and on every input whatsoever the handler is a
total function sending exactly one reply — no error escalates beyond the
handler. Both handler variants are covered. -/
theorem C8_top_level_catch_generic_reply :
    (∀ (env : Env) (msg : Msg),
      ∃ r, (Rich.handleMessage env msg).replies = [(msg.chatId, r)]) ∧
    (∀ (env : Env) (msg : Msg),
      ∃ r, (Simple.handleMessage env msg).replies = [(msg.chatId, r)]) ∧
    (∀ (env : Env) (msg : Msg) (txt : String),
      msg.photo = none → msg.text = some txt → txt ≠ "" →
      env.gen (Content.text
        (Rich.EXTRACTION_PROMPT ++ "\n\nMessage to analyze: " ++ txt)) =
          .error () →
      Rich.handleMessage env msg =
        { aiInputs := [Content.text
            (Rich.EXTRACTION_PROMPT ++ "\n\nMessage to analyze: " ++ txt)],
          replies := [(msg.chatId, processingErrorMsg)] }) ∧
    (∀ (env : Env) (msg : Msg) (sizes : List PhotoSize) (p : PhotoSize),
      msg.photo = some sizes → sizes.getLast? = some p →
      env.getFile p.file_id = .error () →
      Rich.handleMessage env msg =
        { fileRequests := [p.file_id],
          replies := [(msg.chatId, processingErrorMsg)] }) ∧
    (∀ (env : Env) (msg : Msg) (sizes : List PhotoSize) (p : PhotoSize)
      (fi : FileInfo),
      msg.photo = some sizes → sizes.getLast? = some p →
      env.getFile p.file_id = .ok fi →
      env.fetch (Rich.fileUrl env.token fi.file_path) = .error () →
      Rich.handleMessage env msg =
        { fileRequests := [p.file_id],
          fetches := [Rich.fileUrl env.token fi.file_path],
          replies := [(msg.chatId, processingErrorMsg)] }) ∧
    (∀ (env : Env) (msg : Msg),
      env.gen (Simple.content msg) = .error () →
      Simple.handleMessage env msg =
        { aiInputs := [Simple.content msg],
          replies := [(msg.chatId, processingErrorMsg)] }) := by
  refine ⟨rich_one_reply, simple_one_reply, ?_, rich_getFile_fail,
    rich_fetch_fail, simple_gen_fail⟩
  intro env msg txt h1 h2 h3 hg
  rw [rich_text_path env msg txt h1 h2 h3,
    rich_afterContent_gen_fail env msg.chatId _ hg]

/-- C8 witness: a throwing completion call yields the generic reply on
both handlers. -/
theorem C8_witness :
    envGenFail.gen (Content.text (Rich.EXTRACTION_PROMPT ++
      "\n\nMessage to analyze: " ++ "Spent 25 on lunch")) = .error () ∧
    Rich.handleMessage envGenFail wMsgText =
      { aiInputs := [Content.text (Rich.EXTRACTION_PROMPT ++
          "\n\nMessage to analyze: " ++ "Spent 25 on lunch")],
        replies := [(5, processingErrorMsg)] } ∧
    Simple.handleMessage envGenFail wMsgText =
      { aiInputs := [Simple.content wMsgText],
        replies := [(5, processingErrorMsg)] } :=
  ⟨rfl,
   C8_top_level_catch_generic_reply.2.2.1 envGenFail wMsgText
     "Spent 25 on lunch" rfl rfl (by decide) rfl,
   C8_top_level_catch_generic_reply.2.2.2.2.2 envGenFail wMsgText rfl⟩

/-- C9: a parsed response that is truthy but carries no `value` binding
(for example a bare non-zero number) qualifies — its `undefined` value is
not strictly equal to null — so a store insert is attempted with
undefined fields, while a response parsing to null or any falsy value
takes the no-data guidance path. Both handler variants are covered. -/
theorem C9_truthy_nonobject_qualifies_with_undefined_fields :
    (∀ (env : Env) (fd : JsValue) (chatId : Int),
      fd.truthy = true → fd.getF "value" = JsValue.undefined →
      (Rich.processFinancialData env fd chatId).attempts =
        [rowOf (Rich.defaulted env fd)] ∧
      (rowOf (Rich.defaulted env fd)).value = JsValue.undefined) ∧
    (∀ (env : Env) (chatId : Int) (n : Int), n ≠ 0 →
      (Rich.processFinancialData env (JsValue.num n) chatId).attempts =
        [⟨JsValue.undefined, JsValue.undefined, JsValue.undefined,
          JsValue.undefined, JsValue.undefined⟩]) ∧
    (∀ (env : Env) (fd : JsValue) (chatId : Int),
      fd.truthy = false →
      Rich.processFinancialData env fd chatId =
        { replies := [(chatId, noPaymentInfoMsg)] }) ∧
    (∀ (env : Env) (msg : Msg) (s : String) (fd : JsValue),
      env.gen (Simple.content msg) = .ok s → env.parse s = some fd →
      fd.truthy = true → fd.getF "value" = JsValue.undefined →
      (Simple.handleMessage env msg).attempts = [rowOf fd] ∧
      (rowOf fd).value = JsValue.undefined) ∧
    (∀ (env : Env) (msg : Msg) (s : String) (fd : JsValue),
      env.gen (Simple.content msg) = .ok s → env.parse s = some fd →
      fd.truthy = false →
      Simple.handleMessage env msg =
        { aiInputs := [Simple.content msg],
          replies := [(msg.chatId, noPaymentInfoMsg)] }) := by
  refine ⟨?_, ?_, ?_, ?_, ?_⟩
  · intro env fd chatId htr hv
    have hnull : (fd.getF "value").isNull = false := by rw [hv]; rfl
    constructor
    · by_cases hins : env.insertError (rowOf (Rich.defaulted env fd)) = true
      · simp [rich_process_eq, htr, hnull, hins]
      · simp [rich_process_eq, htr, hnull, hins]
    · rw [show (rowOf (Rich.defaulted env fd)).value =
          (Rich.defaulted env fd).getF "value" from rfl,
        defaulted_getF_ne env fd "value" (by decide)]
      exact hv
  · intro env chatId n hn
    have htr : (JsValue.num n).truthy = true := by
      simp [JsValue.truthy, hn]
    have hnull : ((JsValue.num n).getF "value").isNull = false := rfl
    have hrow : rowOf (Rich.defaulted env (JsValue.num n)) =
        ⟨JsValue.undefined, JsValue.undefined, JsValue.undefined,
         JsValue.undefined, JsValue.undefined⟩ := rfl
    by_cases hins : env.insertError
        (rowOf (Rich.defaulted env (JsValue.num n))) = true
    · rw [← hrow]
      simp [rich_process_eq, htr, hnull, hins]
    · rw [← hrow]
      simp [rich_process_eq, htr, hnull, hins]
  · intro env fd chatId hft
    simp [rich_process_eq, hft]
  · intro env msg s fd hg hp htr hv
    have hnull : (fd.getF "value").isNull = false := by rw [hv]; rfl
    rw [simple_parsed env msg s fd hg hp]
    refine ⟨?_, hv⟩
    by_cases hins : env.insertError (rowOf fd) = true
    · simp [htr, hnull, hins, Effects.app]
    · simp [htr, hnull, hins, Effects.app]
  · intro env msg s fd hg hp hft
    rw [simple_parsed env msg s fd hg hp]
    simp [hft, Effects.app]

/-- C9 witness: a bare number 7 qualifies with undefined fields; a falsy
parse result takes the guidance path. -/
theorem C9_witness :
    (JsValue.num 7).truthy = true ∧
    (JsValue.num 7).getF "value" = JsValue.undefined ∧
    (Rich.processFinancialData envBareNum (JsValue.num 7) 5).attempts =
      [rowOf (Rich.defaulted envBareNum (JsValue.num 7))] ∧
    (Simple.handleMessage envBareNum wMsgText).attempts =
      [rowOf (JsValue.num 7)] ∧
    Rich.processFinancialData envBareNum (JsValue.bool false) 5 =
      { replies := [(5, noPaymentInfoMsg)] } :=
  ⟨rfl, rfl,
   (C9_truthy_nonobject_qualifies_with_undefined_fields.1 envBareNum
     (JsValue.num 7) 5 rfl rfl).1,
   (C9_truthy_nonobject_qualifies_with_undefined_fields.2.2.2.1 envBareNum
     wMsgText "RESPONSE" (JsValue.num 7) rfl rfl rfl rfl).1,
   C9_truthy_nonobject_qualifies_with_undefined_fields.2.2.1 envBareNum
     (JsValue.bool false) 5 rfl⟩

/-- C10: a message whose photo field is present but an empty sequence
reaches the top-level catch (reading `.file_id` on the undefined last
element throws) and gets the generic processing-error reply, not the
resend guidance: the truthiness check on the photo field does not guard
against an empty array. -/
theorem C10_empty_photo_sequence_generic_error :
    (∀ (env : Env) (msg : Msg),
      msg.photo = some [] →
      Rich.handleMessage env msg =
        { replies := [(msg.chatId, processingErrorMsg)] }) ∧
    processingErrorMsg ≠ resendMsg :=
  ⟨fun env msg h => rich_empty_photo env msg [] h rfl, by decide⟩

/-- C10 witness: the concrete empty-photo message. -/
theorem C10_witness :
    wMsgEmptyPhoto.photo = some [] ∧
    Rich.handleMessage baseEnv wMsgEmptyPhoto =
      { replies := [(5, processingErrorMsg)] } :=
  ⟨rfl, C10_empty_photo_sequence_generic_error.1 baseEnv wMsgEmptyPhoto rfl⟩
